import Mathlib

/-!
Verification development for the database catalog / cache / search engine of
the AndroidDatabaseViewer repository (src/src/core/database_manager.py, with
the byte-search caller in src/src/gui/search_dialog.py).

The Python module is shallowly embedded: the filesystem content behind a
database path is modelled as explicit data (`DbFileData`), sqlite query
outcomes that the code catches as exceptions are modelled as explicit
success flags or outcome values, and the sqlite layer consulted by
`get_table_data` is modelled as an oracle argument (`SqlAttempt`).
Strings are Python `str` values; `.lower()` is modelled for ASCII.
-/

namespace DbViewer

/-- A SQLite cell value as surfaced to Python by `sqlite3`
(`None` / `int` / `str` / `bytes`; floats are not exercised by any claim
and are omitted from the model). -/
inductive Value where
  | null
  | int (i : Int)
  | text (s : String)
  | blob (b : List Nat)
deriving DecidableEq

/-- ASCII lowercasing, the model of Python `str.lower()` and of SQLite
`LOWER()` on the ASCII range. -/
def lowerStr (s : String) : String := ⟨s.data.map Char.toLower⟩

/-- The single-quote character, written via its code point. -/
def sq : Char := Char.ofNat 39

/-- One byte of Python `repr` for a `bytes` object (the common-case rules:
printable ASCII kept, backslash / quote / tab / newline / return escaped,
everything else as a hex escape). -/
def byteReprChars (n : Nat) : List Char :=
  if n = 92 then ['\\', '\\']
  else if n = 39 then ['\\', sq]
  else if n = 9 then ['\\', 't']
  else if n = 10 then ['\\', 'n']
  else if n = 13 then ['\\', 'r']
  else if 32 ≤ n && n < 127 then [Char.ofNat n]
  else ['\\', 'x', Nat.digitChar (n / 16 % 16), Nat.digitChar (n % 16)]

/-- Python `str(value)` for a cell value: `str(None) = "None"`, decimal for
ints, identity for strings, `repr` for bytes. -/
def pyStr : Value → String
  | .null => "None"
  | .int i => toString i
  | .text s => s
  | .blob b => ⟨('b' :: sq :: (b.map byteReprChars).flatten) ++ [sq]⟩

/-- SQLite's text rendering of a cell, as used when a non-text value is
compared by `LIKE` (blob bytes read as code points). -/
def sqlValueText : Value → String
  | .null => ""
  | .int i => toString i
  | .text s => s
  | .blob b => ⟨b.map Char.ofNat⟩

/-- Containment of `needle` as a contiguous sublist of `hay`
(Python's `in` on `str`/`bytes`, SQLite's `LIKE '%needle%'`). -/
def listContains [BEq α] : List α → List α → Bool
  | n, [] => n.isEmpty
  | n, h :: t => List.isPrefixOf n (h :: t) || listContains n t

/-- ASCII whitespace recognised by Python `str.split()` (modelled for the
ASCII range). -/
def isSpacey (c : Char) : Bool :=
  c == ' ' || c == '\t' || c == '\n' || c == '\r' || c.toNat == 11 || c.toNat == 12

/-- Worker for `pySplit`: accumulates the current word (reversed). -/
def wordsAux : List Char → List Char → List String
  | [], cur => if cur.isEmpty then [] else [⟨cur.reverse⟩]
  | c :: rest, cur =>
    if isSpacey c then
      (if cur.isEmpty then wordsAux rest [] else ⟨cur.reverse⟩ :: wordsAux rest [])
    else wordsAux rest (c :: cur)

/-- Python `str.split()` with no argument: split on whitespace runs,
dropping empty pieces. -/
def pySplit (s : String) : List String := wordsAux s.data []

/-! ## Signature classifier (`FILE_SIGNATURES` / `detect_file_type`) -/

/-- The `FILE_SIGNATURES` table, in its Python insertion (= iteration)
order, with each magic prefix as a byte list. -/
def fileSignatures : List (List Nat × String) := [
  ([0xFF, 0xD8, 0xFF], ".jpg"),
  ([0x89, 0x50, 0x4E, 0x47, 0x0D, 0x0A, 0x1A, 0x0A], ".png"),
  ([0x47, 0x49, 0x46, 0x38, 0x39, 0x61], ".gif"),
  ([0x47, 0x49, 0x46, 0x38, 0x37, 0x61], ".gif"),
  ([0x42, 0x4D], ".bmp"),
  ([0x50, 0x4B, 0x03, 0x04], ".zip"),
  ([0x1F, 0x8B, 0x08], ".gz"),
  ([0x42, 0x5A, 0x68], ".bz2"),
  ([0xFD, 0x37, 0x7A, 0x58, 0x5A, 0x00], ".xz"),
  ([0x28, 0xB5, 0x2F, 0xFD], ".zstd"),
  ([0x75, 0x73, 0x74, 0x61, 0x72, 0x00, 0x30, 0x30], ".tar"),
  ([0x37, 0x7A, 0xBC, 0xAF, 0x27, 0x1C], ".7z"),
  ([0x52, 0x61, 0x72, 0x21, 0x1A, 0x07], ".rar"),
  ([0x78, 0x9C], ".zlib"),
  ([0x49, 0x44, 0x33], ".mp3"),
  ([0xFF, 0xFB], ".mp3"),
  ([0xFF, 0xF3], ".mp3"),
  ([0xFF, 0xF2], ".mp3"),
  ([0x66, 0x4C, 0x61, 0x43], ".flac"),
  ([0x4F, 0x67, 0x67, 0x53], ".ogg"),
  ([0x00, 0x00, 0x00, 0x14, 0x66, 0x74, 0x79, 0x70], ".mp4"),
  ([0x00, 0x00, 0x01, 0xBA], ".mpeg"),
  ([0x00, 0x00, 0x01, 0xB3], ".mpeg"),
  ([0x1A, 0x45, 0xDF, 0xA3], ".mkv"),
  ([0x66, 0x74, 0x79, 0x70], ".mp4"),
  ([0x33, 0x47, 0x50, 0x32], ".3gp"),
  ([0x25, 0x50, 0x44, 0x46], ".pdf"),
  ([0x3C, 0x3F, 0x78, 0x6D, 0x6C], ".xml"),
  ([0x3C, 0x68, 0x74, 0x6D, 0x6C], ".html"),
  ([0xEF, 0xBB, 0xBF], ".txt"),
  ([0x25, 0x21], ".ps"),
  ([0xD0, 0xCF, 0x11, 0xE0, 0xA1, 0xB1, 0x1A, 0xE1], ".doc"),
  ([0x00, 0x01, 0x00, 0x00], ".ttf"),
  ([0x4F, 0x54, 0x54, 0x4F], ".otf"),
  ([0x7F, 0x45, 0x4C, 0x46], ".elf"),
  ([0x4D, 0x5A], ".exe"),
  ([0x43, 0x57, 0x53], ".swf"),
  ([0x53, 0x51, 0x4C, 0x69, 0x74, 0x65, 0x20, 0x66, 0x6F, 0x72, 0x6D, 0x61, 0x74, 0x20, 0x33, 0x00], ".db"),
  ([0x38, 0xB5, 0x2F, 0xFD], ".qcow"),
  ([0x52, 0x49, 0x46, 0x46], ".wav")
]

/-- Model of `data.startswith(sig)` on byte lists. -/
def startsWithSig : List Nat → List Nat → Bool
  | [], _ => true
  | _ :: _, [] => false
  | s :: ss, d :: ds => s == d && startsWithSig ss ds

/-- The `for signature, file_type in FILE_SIGNATURES.items()` loop of
`detect_file_type`: first prefix match wins. -/
def findSignature : List (List Nat × String) → List Nat → Option String
  | [], _ => none
  | (sig, label) :: rest, data =>
    if startsWithSig sig data then some label else findSignature rest data

/-- Python slice `data[a:b]` on a byte list (for `0 ≤ a ≤ b`). -/
def sliceBytes (data : List Nat) (a b : Nat) : List Nat :=
  (data.drop a).take (b - a)

/-- The trailing RIFF block of `detect_file_type`
(`if data.startswith(b'RIFF') and len(data) >= 12: ...`). -/
def riffCheck (data : List Nat) : Option String :=
  if startsWithSig [0x52, 0x49, 0x46, 0x46] data && decide (12 ≤ data.length) then
    if sliceBytes data 8 12 == [0x57, 0x41, 0x56, 0x45] then some ".wav"
    else if sliceBytes data 8 12 == [0x41, 0x56, 0x49, 0x20] then some ".avi"
    else if sliceBytes data 8 12 == [0x57, 0x45, 0x42, 0x50] then some ".webp"
    else none
  else none

/-- Model of `detect_file_type(data)`: length guard, signature-table scan, the
`ftyp`-at-offset-4 block, then the RIFF block (Python falls through to the
RIFF block whenever the `ftyp` block does not return). -/
def detect_file_type (data : List Nat) : Option String :=
  if data.length < 4 then none
  else
    match findSignature fileSignatures data with
    | some t => some t
    | none =>
      if 12 ≤ data.length then
        if sliceBytes data 4 8 == [0x66, 0x74, 0x79, 0x70] then
          if [[0x6D, 0x70, 0x34, 0x31], [0x6D, 0x70, 0x34, 0x32],
              [0x69, 0x73, 0x6F, 0x6D], [0x4D, 0x34, 0x56, 0x20],
              [0x4D, 0x34, 0x41, 0x20]].contains (sliceBytes data 8 12) then
            some ".mp4"
          else if sliceBytes data 8 12 == [0x4D, 0x34, 0x56, 0x20] then some ".m4v"
          else riffCheck data
        else riffCheck data
      else riffCheck data

/-! ## Catalog data model

A database file's on-disk content is modelled explicitly: its tables with
their column names and rows, plus flags saying whether the `COUNT(*)` query
(`_get_table_row_count`) and the full-fetch (`_load_table_data`) would
succeed on it — the Python helpers catch all exceptions, returning `0`
resp. `([], [])` on failure. -/

/-- One table inside a database file. `countOk` / `loadOk` model whether
the sqlite count query resp. the full row fetch raises. -/
structure TableData where
  name : String
  columns : List String
  rows : List (List Value)
  countOk : Bool
  loadOk : Bool
deriving DecidableEq

/-- The content of one database file on disk. -/
structure DbFileData where
  tables : List TableData
deriving DecidableEq

/-- One candidate database file of a package (`db_file` in
`load_databases`); `onDisk` models `os.path.exists(db_file.file_path)`. -/
structure DbFileEntry where
  fileName : String
  onDisk : Bool
  data : DbFileData
deriving DecidableEq

/-- One package of the input package list. -/
structure Package where
  packageName : String
  databaseFiles : List (String × List DbFileEntry)
deriving DecidableEq

/-- Model of `DatabaseInfo`: identity of a catalogued database plus its table-name
list; `file` stands for the filesystem content reachable through
`database_path`. -/
structure DbInfo where
  packageName : String
  databaseName : String
  parentDir : String
  tables : List String
  file : DbFileData
deriving DecidableEq

/-- Model of `CachedTableData`: a fully materialized table snapshot. -/
structure CachedTableData where
  columns : List String
  rows : List (List Value)
  totalRows : Nat
deriving DecidableEq

/-- One entry of a posting list in `search_index`. -/
structure Posting where
  packageName : String
  parentDir : String
  databaseName : String
  tableName : String
  columnName : String
  rowData : List (String × Value)
  matchValue : String
deriving DecidableEq

/-- Model of `SearchResult`. -/
structure SearchResult where
  packageName : String
  databaseName : String
  tableName : String
  columnName : String
  rowData : List (String × Value)
  matchValue : String
  parentDir : String
deriving DecidableEq

/-- The deduplication key used when merging plain-mode search results:
`(package_name, database_name, table_name, column_name, match_value)`. -/
def resultKey (r : SearchResult) : String × String × String × String × String :=
  (r.packageName, r.databaseName, r.tableName, r.columnName, r.matchValue)

/-- The `DatabaseManager` state after `load_databases`: `databases` and
`cached_data` are the nested dicts (modelled as insertion-ordered
association lists), `searchIndex` the token index. -/
structure DmState where
  databases : List (String × List (String × List (String × DbInfo)))
  cachedData : List (String × List (String × List (String × List (String × CachedTableData))))
  searchIndex : List (String × List Posting)

/-! ## Load-time helpers (`_get_table_row_count`, `_load_table_data`,
`_get_table_names`, the caching loop of `load_databases`) -/

/-- Model of `_get_table_row_count`: the bare `except: return 0` makes a failing
count query indistinguishable from an empty table. -/
def getTableRowCount (t : TableData) : Nat :=
  if t.countOk then t.rows.length else 0

/-- Model of `_load_table_data` without a limit: on any error it returns
`([], [])`. -/
def loadTableDataF (t : TableData) : List String × List (List Value) :=
  if t.loadOk then (t.columns, t.rows) else ([], [])

/-- One iteration of the caching loop of `load_databases` (lines 262-276):
a table whose reported row count is ≤ 1000 is materialized. -/
def cacheEntry (t : TableData) : Option (String × CachedTableData) :=
  if getTableRowCount t ≤ 1000 then
    some (t.name, { columns := (loadTableDataF t).1
                    rows := (loadTableDataF t).2
                    totalRows := getTableRowCount t })
  else none

/-- The per-database caching loop of `load_databases`: the cache dict of
one database file. -/
def buildTableCache (f : DbFileData) : List (String × CachedTableData) :=
  f.tables.filterMap cacheEntry

/-- Model of `_get_table_names` (non-system tables of the file, in enumeration
order; the `ORDER BY name` of the source is carried by the input order). -/
def getTableNames (f : DbFileData) : List String := f.tables.map (·.name)

/-- Model of `PRAGMA table_info(t)` on a file: column names, `[]` when the table is
absent. -/
def tableColumns (f : DbFileData) (tn : String) : List String :=
  match f.tables.find? (fun t => t.name == tn) with
  | some t => t.columns
  | none => []

/-- Model of `SELECT * FROM t` on a file: all rows, `[]` when the table is absent. -/
def tableRows (f : DbFileData) (tn : String) : List (List Value) :=
  match f.tables.find? (fun t => t.name == tn) with
  | some t => t.rows
  | none => []

/-! ## Search index construction (`_build_search_index`,
`_add_to_search_index`) -/

/-- The tokenizer of `_add_to_search_index`:
`value_str.replace(',',' ').replace('.',' ').replace(':',' ').split()`. -/
def tokenizePy (s : String) : List String :=
  pySplit ⟨s.data.map (fun c =>
    if c == ',' || c == '.' || c == ':' then ' ' else c)⟩

/-- The postings one cached row contributes, in emission order: for every
non-null cell, every token (of the lowercased stringified value) of length
> 1 yields one posting carrying the original stringified value. -/
def rowEmissions (pkg dir db tn : String) (cols : List String) (row : List Value) :
    List (String × Posting) :=
  (cols.zip row).flatMap (fun cv =>
    if cv.2 = Value.null then []
    else
      (tokenizePy (lowerStr (pyStr cv.2))).filterMap (fun w =>
        if 1 < w.length then
          some (w, { packageName := pkg, parentDir := dir, databaseName := db,
                     tableName := tn, columnName := cv.1,
                     rowData := cols.zip row, matchValue := pyStr cv.2 })
        else none))

/-- The postings one database contributes: for each table name, only a
cached snapshot contributes (rows zipped with the snapshot's columns). -/
def dbEmissions (pkg dir db : String) (tnames : List String)
    (tcache : List (String × CachedTableData)) : List (String × Posting) :=
  tnames.flatMap (fun tn =>
    match List.lookup tn tcache with
    | some c => c.rows.flatMap (fun row => rowEmissions pkg dir db tn c.columns row)
    | none => [])

/-- Appending a posting under a token, with Python-dict semantics: an
existing key keeps its position and appends, a new key is appended at the
end. -/
def insertPosting (idx : List (String × List Posting)) (w : String) (p : Posting) :
    List (String × List Posting) :=
  match idx with
  | [] => [(w, [p])]
  | (w', ps) :: rest =>
    if w' == w then (w', ps ++ [p]) :: rest
    else (w', ps) :: insertPosting rest w p

/-- The `search_index` dict as the fold of all emissions. -/
def buildIndex (emissions : List (String × Posting)) : List (String × List Posting) :=
  emissions.foldl (fun idx wp => insertPosting idx wp.1 wp.2) []

/-- Per-table cache lookup
(`self.cached_data.get(p, {}).get(dir, {}).get(db, {})`). -/
def cacheTables
    (cache : List (String × List (String × List (String × List (String × CachedTableData)))))
    (pkg dir db : String) : List (String × CachedTableData) :=
  ((((List.lookup pkg cache).getD []).lookup dir).getD [] |>.lookup db).getD []

/-- All index emissions of `_build_search_index`, in traversal order. -/
def allEmissions
    (dbs : List (String × List (String × List (String × DbInfo))))
    (cache : List (String × List (String × List (String × List (String × CachedTableData)))))
    : List (String × Posting) :=
  dbs.flatMap (fun pd =>
    pd.2.flatMap (fun dd =>
      dd.2.flatMap (fun dbp =>
        dbEmissions pd.1 dd.1 dbp.1 dbp.2.tables (cacheTables cache pd.1 dd.1 dbp.1))))

/-- Model of `load_databases(packages)` followed by `_build_search_index()`:
existing files produce a `DatabaseInfo` plus a per-table cache; empty
directories and packages are dropped (`if dir_dbs:` / `if package_dbs:`). -/
def loadDatabases (packages : List Package) : DmState :=
  let perPackage := packages.filterMap (fun p =>
    let dirs := p.databaseFiles.filterMap (fun dfs =>
      let dbs := dfs.2.filterMap (fun f =>
        if f.onDisk then
          some (f.fileName,
                { packageName := p.packageName, databaseName := f.fileName,
                  parentDir := dfs.1, tables := getTableNames f.data,
                  file := f.data : DbInfo })
        else none)
      let caches := dfs.2.filterMap (fun f =>
        if f.onDisk then some (f.fileName, buildTableCache f.data) else none)
      if dbs.isEmpty then none else some ((dfs.1, dbs), (dfs.1, caches)))
    if dirs.isEmpty then none
    else some ((p.packageName, dirs.map (·.1)), (p.packageName, dirs.map (·.2))))
  let dbs := perPackage.map (·.1)
  let cache := perPackage.map (·.2)
  { databases := dbs, cachedData := cache,
    searchIndex := buildIndex (allEmissions dbs cache) }

/-- The cache probe at the top of `get_table_data`
(`self.cached_data.get(..).get(..).get(..).get(table_name)`). -/
def cachedLookup (st : DmState) (pkg dir db tn : String) : Option CachedTableData :=
  List.lookup tn (cacheTables st.cachedData pkg dir db)

/-- The catalog probe of `get_table_data`
(`package_name not in self.databases or ...`). -/
def dbLookup (st : DmState) (pkg dir db : String) : Option DbInfo :=
  match List.lookup pkg st.databases with
  | none => none
  | some dirs =>
    match List.lookup dir dirs with
    | none => none
    | some dbs => List.lookup db dbs

/-! ## Plain-mode search (`global_search` with `use_regex=False`,
`_traditional_search`, `_search_database`) -/

/-- The value of column `c` in a row, as SQL sees it for the `WHERE`
clause (missing column → `NULL`). -/
def colValue (cols : List String) (row : List Value) (c : String) : Value :=
  (List.lookup c (cols.zip row)).getD Value.null

/-- Model of `str(row_data.get(column, ""))`: the stringified value of the matched
column (`str("") = ""` when the column is missing from the row dict). -/
def matchValueStr (cols : List String) (row : List Value) (c : String) : String :=
  match List.lookup c (cols.zip row) with
  | some v => pyStr v
  | none => ""

/-- Row predicate of the interpolated plain-mode queries
`... WHERE col LIKE '%pat%' LIMIT 100` and
`... WHERE LOWER(col) LIKE '%pat%' LIMIT 100`: under SQLite's
ASCII-case-insensitive `LIKE` both match exactly the rows whose cell,
rendered as text, contains the pattern up to ASCII case; `NULL` never
matches `LIKE`. -/
def likeRowMatch (pat : String) (v : Value) : Bool :=
  match v with
  | .null => false
  | v => listContains (lowerStr pat).data (lowerStr (sqlValueText v)).data

/-- The plain-string branch of `_search_database`: per table, per column,
the first 100 matching rows become results. -/
def searchDatabasePlain (dbi : DbInfo) (pattern : String) : List SearchResult :=
  dbi.tables.flatMap (fun tn =>
    let cols := tableColumns dbi.file tn
    cols.flatMap (fun c =>
      (((tableRows dbi.file tn).filter
          (fun row => likeRowMatch pattern (colValue cols row c))).take 100).map
        (fun row =>
          { packageName := dbi.packageName, databaseName := dbi.databaseName,
            tableName := tn, columnName := c, rowData := cols.zip row,
            matchValue := matchValueStr cols row c, parentDir := dbi.parentDir })))

/-- Model of `_traditional_search` with `use_regex=False`: every catalogued
database in traversal order. -/
def traditionalSearchPlain (st : DmState) (pattern : String) : List SearchResult :=
  st.databases.flatMap (fun pd =>
    pd.2.flatMap (fun dd =>
      dd.2.flatMap (fun dbp => searchDatabasePlain dbp.2 pattern)))

def postingToResult (p : Posting) : SearchResult :=
  { packageName := p.packageName, databaseName := p.databaseName,
    tableName := p.tableName, columnName := p.columnName,
    rowData := p.rowData, matchValue := p.matchValue, parentDir := p.parentDir }

/-- The index pass of `global_search` (case-insensitive only): for each
word of the lowered term, each posting under that word whose stored value
contains the lowered term contributes a result. -/
def indexPassResults (st : DmState) (pattern : String) : List SearchResult :=
  (pySplit pattern).flatMap (fun w =>
    match List.lookup w st.searchIndex with
    | some ps =>
      (ps.filter (fun p =>
        listContains pattern.data (lowerStr p.matchValue).data)).map postingToResult
    | none => [])

/-- Index-pass results of a plain-mode `global_search` call: empty when
`case_sensitive` (the index pass is guarded by `if not case_sensitive`). -/
def ixPass (st : DmState) (term : String) (cs : Bool) : List SearchResult :=
  if cs then [] else indexPassResults st (lowerStr term)

/-- Model of `global_search(term, case_sensitive, use_regex=False)`: index pass,
then — when it produced fewer than 100 results — the fallback scan, whose
results are appended unless their key is among the index-pass keys. -/
def globalSearchPlain (st : DmState) (term : String) (cs : Bool) : List SearchResult :=
  let pattern := if cs then term else lowerStr term
  let ix := ixPass st term cs
  if ix.length < 100 then
    ix ++ (traditionalSearchPlain st pattern).filter
      (fun r => !(decide (resultKey r ∈ ix.map resultKey)))
  else ix

/-! ## Regex-mode search (`_search_database` with `use_regex=True`)

Python's `re` engine is abstracted as two oracles: `reValid pat` models
whether `re.compile(pat, flags)` succeeds (`re.error` depends only on the
pattern text), and a matcher `pat → flags → text → Bool` models
`re.compile(pat, flags).search(text)`. `re.IGNORECASE = 2`. -/

/-- A diagnostic record modelling the `print` emitted when `re.compile`
fails while the scan is at a given database/table/column (the scan then
`continue`s with the next column). -/
inductive Diag where
  | regexError (packageName databaseName tableName columnName : String)
deriving DecidableEq

/-- Results of one column's regex scan: the first 10000 rows of the table,
filtered by the compiled matcher over the stringified cell. -/
def regexColumnResults (dbi : DbInfo) (tn : String) (cols : List String) (c : String)
    (rows : List (List Value)) (m : String → Bool) : List SearchResult :=
  rows.filterMap (fun row =>
    let s := matchValueStr cols row c
    if m s then
      some { packageName := dbi.packageName, databaseName := dbi.databaseName,
             tableName := tn, columnName := c, rowData := cols.zip row,
             matchValue := s, parentDir := dbi.parentDir }
    else none)

/-- Core of the regex-mode traversal, parameterized by the compile outcome
`vp` and the compiled matcher `m`: results in traversal order, and one
diagnostic per scanned column when compilation fails (the column is
skipped; the traversal continues). -/
def regexTraditionalCore (st : DmState) (vp : Bool) (m : String → Bool) :
    List SearchResult × List Diag :=
  (st.databases.flatMap (fun pd =>
     pd.2.flatMap (fun dd =>
       dd.2.flatMap (fun dbp =>
         dbp.2.tables.flatMap (fun tn =>
           let cols := tableColumns dbp.2.file tn
           cols.flatMap (fun c =>
             if vp then
               regexColumnResults dbp.2 tn cols c
                 ((tableRows dbp.2.file tn).take 10000) m
             else []))))),
   st.databases.flatMap (fun pd =>
     pd.2.flatMap (fun dd =>
       dd.2.flatMap (fun dbp =>
         dbp.2.tables.flatMap (fun tn =>
           (tableColumns dbp.2.file tn).flatMap (fun c =>
             if vp then []
             else [Diag.regexError dbp.2.packageName dbp.2.databaseName tn c]))))))

/-- Model of `_traditional_search` with `use_regex=True`: the pattern is compiled
with `flags = 0 if case_sensitive else re.IGNORECASE`. -/
def regexTraditionalSearch (st : DmState) (pattern : String) (cs : Bool)
    (reValid : String → Bool) (reMatch : String → Nat → String → Bool) :
    List SearchResult × List Diag :=
  regexTraditionalCore st (reValid pattern)
    (fun s => reMatch pattern (if cs then 0 else 2) s)

/-- The diagnostics a regex-mode scan with an invalid pattern produces:
one per scanned column, across all tables of all catalogued databases. -/
def expectedRegexDiags (st : DmState) : List Diag :=
  st.databases.flatMap (fun pd =>
    pd.2.flatMap (fun dd =>
      dd.2.flatMap (fun dbp =>
        dbp.2.tables.flatMap (fun tn =>
          (tableColumns dbp.2.file tn).flatMap
            (fun c => [Diag.regexError dbp.2.packageName dbp.2.databaseName tn c])))))

/-! ## Paged table reads (`get_table_data`, `_retry_get_table_data`)

The sqlite layer behind a disk read is an oracle: one `SqlAttempt` for the
original connection and one for the fresh retry connection. -/

/-- Outcome of one connection's PRAGMA+SELECT:
success with columns and the requested page, `sqlite3.OperationalError`
with its message, another `sqlite3.Error`, or any other exception. -/
inductive SqlAttempt where
  | ok (cols : List String) (rows : List (List Value))
  | opErr (msg : String)
  | dbErr
  | exn
deriving DecidableEq

/-- Model of `_retry_get_table_data`: a fresh connection (5 s timeout, 5 s busy
wait); any failure yields `([], [])`. -/
def retryGetTableData : SqlAttempt → List String × List (List Value)
  | .ok cols rows => (cols, rows)
  | _ => ([], [])

/-- Model of `get_table_data(package, dir, db, table, limit, offset)`:
cache hit → in-memory slice `rows[offset : offset + limit]`; unknown
location → empty; disk read → first attempt, retrying exactly once on an
operational error whose message contains "database is locked", and
returning `([], [])` on every other failure (the function never raises). -/
def getTableData (st : DmState) (pkg dir db tn : String) (limit offset : Nat)
    (first retry : SqlAttempt) : List String × List (List Value) :=
  match cachedLookup st pkg dir db tn with
  | some c => (c.columns, (c.rows.drop offset).take limit)
  | none =>
    match dbLookup st pkg dir db with
    | none => ([], [])
    | some _ =>
      match first with
      | .ok cols rows => if cols.isEmpty then ([], []) else (cols, rows)
      | .opErr msg =>
        if listContains "database is locked".data (lowerStr msg).data then
          retryGetTableData retry
        else ([], [])
      | .dbErr => ([], [])
      | .exn => ([], [])

/-! ## Constructed SQL texts (query construction of `get_table_data`,
`_retry_get_table_data` and the plain-string branch of
`_search_database`) -/

/-- A value bound as a query parameter. -/
inductive SqlParam where
  | int (i : Int)
  | str (s : String)
deriving DecidableEq

/-- A constructed query: its SQL text and its bound parameters. -/
structure SqlQuery where
  sql : List Char
  params : List SqlParam
deriving DecidableEq

/-- The bracket quoting `[{identifier}]` used by `get_table_data`. -/
def bracketIdent (t : String) : List Char := '[' :: (t.data ++ [']'])

/-- The page query of `get_table_data` and `_retry_get_table_data`:
`SELECT * FROM [{table_name}] LIMIT ? OFFSET ?` with `(limit, offset)`
bound. -/
def getTableDataQuery (t : String) (limit offset : Int) : SqlQuery :=
  { sql := "SELECT * FROM ".data ++ bracketIdent t ++ " LIMIT ? OFFSET ?".data,
    params := [.int limit, .int offset] }

/-- The case-sensitive plain-search query of `_search_database`:
`SELECT * FROM {table} WHERE {column} LIKE '%{pattern}%' LIMIT 100`
(whitespace normalized), with no bound parameters. -/
def plainSearchQueryCS (t c p : String) : SqlQuery :=
  { sql := "SELECT * FROM ".data ++ t.data ++ " WHERE ".data ++ c.data
             ++ (" LIKE ".data ++ [sq, '%']) ++ p.data
             ++ ('%' :: sq :: " LIMIT 100".data),
    params := [] }

/-- The case-insensitive plain-search query of `_search_database`:
`SELECT * FROM {table} WHERE LOWER({column}) LIKE '%{pattern}%' LIMIT 100`,
with no bound parameters. -/
def plainSearchQueryCI (t c p : String) : SqlQuery :=
  { sql := "SELECT * FROM ".data ++ t.data ++ " WHERE LOWER(".data ++ c.data
             ++ (") LIKE ".data ++ [sq, '%']) ++ p.data
             ++ ('%' :: sq :: " LIMIT 100".data),
    params := [] }

/-! ## Byte-pattern search mode -/

/-- Hex-digit test of the validation regex `^[0-9a-fA-F]+$` in
`SearchDialog.start_search`. -/
def isHexDigitPy (c : Char) : Bool :=
  ('0' ≤ c && c ≤ '9') || ('a' ≤ c && c ≤ 'f') || ('A' ≤ c && c ≤ 'F')

/-- The byte-search input validation of `SearchDialog.start_search`
(src/src/gui/search_dialog.py): nonempty, hex digits only, even length. -/
def hexTermValid (s : String) : Bool :=
  decide (0 < s.length) && s.data.all isHexDigitPy && s.length % 2 == 0

def hexDigitVal (c : Char) : Nat :=
  if '0' ≤ c && c ≤ '9' then c.toNat - 48
  else if 'a' ≤ c && c ≤ 'f' then c.toNat - 87
  else if 'A' ≤ c && c ≤ 'F' then c.toNat - 55
  else 0

/-- Model of `bytes.fromhex`: consecutive digit pairs to bytes. -/
def decodeHex : List Char → List Nat
  | c1 :: c2 :: rest => (16 * hexDigitVal c1 + hexDigitVal c2) :: decodeHex rest
  | _ => []

/-- Byte matches of one database: only blob cells whose bytes contain the
needle. -/
def byteSearchDb (dbi : DbInfo) (needle : List Nat) : List SearchResult :=
  dbi.tables.flatMap (fun tn =>
    let cols := tableColumns dbi.file tn
    cols.flatMap (fun c =>
      (tableRows dbi.file tn).filterMap (fun row =>
        match List.lookup c (cols.zip row) with
        | some (Value.blob b) =>
          if listContains needle b then
            some { packageName := dbi.packageName, databaseName := dbi.databaseName,
                   tableName := tn, columnName := c, rowData := cols.zip row,
                   matchValue := pyStr (Value.blob b), parentDir := dbi.parentDir }
          else none
        | _ => none)))

/-- Modelled from the spec: the byte-pattern search mode. The search entry
point in src/ (`DatabaseManager.global_search`) does not accept the
`search_bytes` argument its caller (`SearchThread.run` in
src/src/gui/search_dialog.py) passes, so the byte-pattern implementation
is missing from src/; only its input validation (`start_search`) is
present and is embedded above as `hexTermValid`. Per spec §4.5: an invalid
hex term is rejected with a validation error; a valid term is decoded and
matched only against binary cell values by exact substring containment,
always via a full fallback scan with no index participation. -/
def byteSearch (st : DmState) (term : String) : Except String (List SearchResult) :=
  if hexTermValid term then
    let needle := decodeHex term.data
    .ok (st.databases.flatMap (fun pd =>
      pd.2.flatMap (fun dd =>
        dd.2.flatMap (fun dbp => byteSearchDb dbp.2 needle))))
  else .error "invalid hex term"

end DbViewer

namespace DbViewer

/-- Fixture: a 12-byte RIFF container whose type tag at offset 8 is
`AVI ` (bytes `52 49 46 46 .. .. .. .. 41 56 49 20`). -/
def riffAviBuffer : List Nat :=
  [0x52, 0x49, 0x46, 0x46, 0x10, 0x00, 0x00, 0x00, 0x41, 0x56, 0x49, 0x20]

/-- Fixture table: two rows holding the same text value in the same
column. -/
def peopleTable : TableData :=
  { name := "people", columns := ["name"],
    rows := [[Value.text "alice"], [Value.text "alice"]],
    countOk := true, loadOk := true }

/-- Fixture package with one database holding `peopleTable`. -/
def demoPackage : Package :=
  { packageName := "p",
    databaseFiles := [("databases",
      [{ fileName := "d", onDisk := true, data := { tables := [peopleTable] } }])] }

/-- The loaded catalog of `demoPackage` (the `people` table is cached and
indexed). -/
def demoState : DmState := loadDatabases [demoPackage]

/-- Fixture table whose row count (1001) exceeds the caching threshold. -/
def bigTable : TableData :=
  { name := "big", columns := ["a"],
    rows := List.replicate 1001 [Value.int 0],
    countOk := true, loadOk := true }

/-- Fixture package with one database holding only `bigTable`. -/
def bigPackage : Package :=
  { packageName := "p",
    databaseFiles := [("databases",
      [{ fileName := "d", onDisk := true, data := { tables := [bigTable] } }])] }

/-- The loaded catalog of `bigPackage` (nothing is cached). -/
def bigState : DmState := loadDatabases [bigPackage]

/-- Fixture: a table whose `COUNT(*)` query fails (e.g. a corrupt table);
its real content is nonempty. -/
def failCountTable : TableData :=
  { name := "t", columns := ["a"],
    rows := [[Value.int 1], [Value.int 2]],
    countOk := false, loadOk := false }

/-- Fixture database file holding only `failCountTable`. -/
def failCountFile : DbFileData := { tables := [failCountTable] }

/-- Fixture database file with one small and one oversized table. -/
def mixedFile : DbFileData := { tables := [peopleTable, bigTable] }

end DbViewer

namespace DbViewer

/-! ## Theorems -/

/-- A `flatMap` whose body is always empty is empty. -/
theorem flatMap_const_nil (l : List α) : l.flatMap (fun _ => ([] : List β)) = [] := by
  induction l with
  | nil => rfl
  | cons a as ih => simp

/-- C9. Classifier round-trip: a buffer built from the JPEG magic
`FF D8 FF` classifies as `.jpg`, a buffer built from the PNG magic
`89 50 4E 47 0D 0A 1A 0A` classifies as `.png`, and every buffer that is
empty or shorter than 4 bytes classifies as none. -/
theorem c9_classifier_roundtrip :
    detect_file_type [0xFF, 0xD8, 0xFF, 0xE0] = some ".jpg"
    ∧ detect_file_type [0x89, 0x50, 0x4E, 0x47, 0x0D, 0x0A, 0x1A, 0x0A] = some ".png"
    ∧ ∀ data : List Nat, data.length < 4 → detect_file_type data = none := by
  refine ⟨by decide, by decide, fun data h => ?_⟩
  unfold detect_file_type
  rw [if_pos h]

/-- Witness for C9: the empty buffer classifies as none. -/
theorem c9_witness : detect_file_type [] = none :=
  c9_classifier_roundtrip.2.2 [] (by decide)

/-- Counterexample to C8: a 12-byte buffer with the generic RIFF prefix
and type tag `AVI ` at offset 8 classifies as `.wav`, not `.avi` — the
generic `RIFF → .wav` entry of the signature table matches before the
offset-8 tag check is reached. -/
theorem c8_counterexample :
    detect_file_type riffAviBuffer = some ".wav"
    ∧ ¬ detect_file_type riffAviBuffer = some ".avi" := by decide

/-- C8 (amended). Every buffer beginning with the RIFF prefix — in
particular every buffer of at least 12 bytes, whatever its type tag at
offset 8 — classifies as `.wav`: the signature-table pass returns first
and the container-specific tag check is unreachable. -/
theorem c8_amended (rest : List Nat) :
    detect_file_type (0x52 :: 0x49 :: 0x46 :: 0x46 :: rest) = some ".wav" := by
  have hlen : ¬ ((0x52 :: 0x49 :: 0x46 :: 0x46 :: rest).length < 4) := by
    simp [List.length_cons]
  unfold detect_file_type
  rw [if_neg hlen]
  rfl

/-- Counterexample to C3: the plain-mode case-sensitive search query
interpolates the search term into the SQL text, binds no parameters, and
brackets no identifier. -/
theorem c3_counterexample :
    (plainSearchQueryCS "t" "c" "pat").params = []
    ∧ listContains "pat".data (plainSearchQueryCS "t" "c" "pat").sql = true
    ∧ (plainSearchQueryCS "t" "c" "pat").sql.all (fun ch => !(ch == '[')) = true := by
  decide

/-- C3 (amended). The paged-read query of `get_table_data` /
`_retry_get_table_data` brackets its table identifier and binds limit and
offset as parameters (its SQL text does not depend on them); but both
plain-mode search queries of `_search_database` bind no parameters and
embed the search pattern directly in the SQL text. -/
theorem c3_amended :
    (∀ t limit offset,
        (getTableDataQuery t limit offset).sql = (getTableDataQuery t 0 0).sql
        ∧ (getTableDataQuery t limit offset).params
            = [SqlParam.int limit, SqlParam.int offset]
        ∧ ∃ pre post,
            (getTableDataQuery t limit offset).sql = pre ++ bracketIdent t ++ post)
    ∧ (∀ t c p, (plainSearchQueryCS t c p).params = []
        ∧ ∃ pre post, (plainSearchQueryCS t c p).sql = pre ++ p.data ++ post)
    ∧ (∀ t c p, (plainSearchQueryCI t c p).params = []
        ∧ ∃ pre post, (plainSearchQueryCI t c p).sql = pre ++ p.data ++ post) := by
  refine ⟨fun t limit offset => ⟨rfl, rfl,
      "SELECT * FROM ".data, " LIMIT ? OFFSET ?".data, rfl⟩,
    fun t c p => ⟨rfl,
      "SELECT * FROM ".data ++ t.data ++ " WHERE ".data ++ c.data
        ++ (" LIKE ".data ++ [sq, '%']),
      '%' :: sq :: " LIMIT 100".data, ?_⟩,
    fun t c p => ⟨rfl,
      "SELECT * FROM ".data ++ t.data ++ " WHERE LOWER(".data ++ c.data
        ++ (") LIKE ".data ++ [sq, '%']),
      '%' :: sq :: " LIMIT 100".data, ?_⟩⟩
  · simp [plainSearchQueryCS, List.append_assoc]
  · simp [plainSearchQueryCI, List.append_assoc]

/-- C5 (what the code actually does at the failing input): for a table
whose `COUNT(*)` query fails, `_get_table_row_count` returns 0, so the
caching loop of `load_databases` does not skip the table — it stores a
cached snapshot with empty columns and rows, although the table's real
content is nonempty. -/
theorem c5_count_failure_cached :
    buildTableCache failCountFile
      = [("t", { columns := [], rows := [], totalRows := 0 })]
    ∧ failCountTable.countOk = false
    ∧ failCountTable.rows ≠ [] := by decide

/-- Counterexample to C1: on a catalog whose cached table `people` holds
the value "alice" in two rows, the plain-mode search for "alice" returns
two results with identical
(package, database, table, column, match_value) tuples — the index pass
itself is not deduplicated. -/
theorem c1_counterexample :
    ¬ ((globalSearchPlain demoState "alice" false).map resultKey).Nodup := by
  decide

/-- C1 (amended). For every plain-mode search, the result sequence is the
index-pass results followed by fallback-derived additions, and every
fallback-derived addition's (package, database, table, column,
match_value) tuple differs from every index-pass tuple; duplicates may
still occur among the index-pass results themselves and among the
fallback-derived additions. -/
theorem c1_amended (st : DmState) (term : String) (cs : Bool) :
    ∃ adds, globalSearchPlain st term cs = ixPass st term cs ++ adds
      ∧ ∀ r ∈ adds, resultKey r ∉ (ixPass st term cs).map resultKey := by
  by_cases h : (ixPass st term cs).length < 100
  · refine ⟨(traditionalSearchPlain st (if cs then term else lowerStr term)).filter
        (fun r => !(decide (resultKey r ∈ (ixPass st term cs).map resultKey))),
      ?_, ?_⟩
    · simp only [globalSearchPlain, if_pos h]
    · intro r hr
      have h2 := (List.mem_filter.mp hr).2
      simpa using h2
  · refine ⟨[], ?_, by simp⟩
    simp only [globalSearchPlain, if_neg h, List.append_nil]

/-- Witness for C1 (amended): the decomposition evaluated on the demo
catalog. -/
theorem c1_witness :
    ∃ adds, globalSearchPlain demoState "alice" false
        = ixPass demoState "alice" false ++ adds
      ∧ ∀ r ∈ adds, resultKey r ∉ (ixPass demoState "alice" false).map resultKey :=
  c1_amended demoState "alice" false

/-- Witness for C3 (amended): the paged-read query for table "t" with
limit 5 and offset 7 binds both numbers as parameters. -/
theorem c3_witness :
    (getTableDataQuery "t" 5 7).params = [SqlParam.int 5, SqlParam.int 7] :=
  (c3_amended.1 "t" 5 7).2.1

/-- Witness for C8 (amended): a RIFF buffer carrying the WEBP type tag at
offset 8 still classifies as `.wav`. -/
theorem c8_witness :
    detect_file_type [0x52, 0x49, 0x46, 0x46, 0, 0, 0, 0, 0x57, 0x45, 0x42, 0x50]
      = some ".wav" :=
  c8_amended [0, 0, 0, 0, 0x57, 0x45, 0x42, 0x50]

/-- C10. When a cached snapshot exists for the requested table,
`get_table_data` returns the snapshot's full column list together with
exactly the slice `rows[offset : offset + limit]` — hence at most `limit`
rows, and no rows at all once `offset` reaches the row count — and its
result does not depend on the sqlite oracles (no I/O); being a total
function, it never raises. -/
theorem c10_cached_slice (st : DmState) (pkg dir db tn : String)
    (limit offset : Nat) (first retry : SqlAttempt) (c : CachedTableData)
    (h : cachedLookup st pkg dir db tn = some c) :
    getTableData st pkg dir db tn limit offset first retry
      = (c.columns, (c.rows.drop offset).take limit)
    ∧ (getTableData st pkg dir db tn limit offset first retry).2.length ≤ limit
    ∧ (c.rows.length ≤ offset →
        (getTableData st pkg dir db tn limit offset first retry).2 = [])
    ∧ ∀ f r, getTableData st pkg dir db tn limit offset first retry
        = getTableData st pkg dir db tn limit offset f r := by
  have he : ∀ f r, getTableData st pkg dir db tn limit offset f r
      = (c.columns, (c.rows.drop offset).take limit) := by
    intro f r
    unfold getTableData
    rw [h]
  refine ⟨he first retry, ?_, ?_, fun f r => (he first retry).trans (he f r).symm⟩
  · rw [he first retry]
    simp
  · intro hlen
    rw [he first retry]
    simp [List.drop_eq_nil_of_le hlen]

/-- Witness for C10: on the demo catalog, a cached read past the end of
the two-row `people` table returns the full column list and no rows. -/
theorem c10_witness :
    getTableData demoState "p" "databases" "d" "people" 10 5
      SqlAttempt.exn SqlAttempt.exn = (["name"], []) := by
  have h := c10_cached_slice demoState "p" "databases" "d" "people" 10 5
    SqlAttempt.exn SqlAttempt.exn
    { columns := ["name"], rows := [[Value.text "alice"], [Value.text "alice"]],
      totalRows := 2 }
    (by decide)
  exact h.1.trans (by decide)

/-- C4. On a disk-resident read (no cached snapshot, known location), a
locked-database operational error on the first attempt makes
`get_table_data` consult the fresh retry connection exactly once and
return its outcome; if the retry also fails, or on any other database
error or exception, the call returns `([], [])` — as a total function it
never raises to the caller. -/
theorem c4_locked_retry (st : DmState) (pkg dir db tn : String)
    (limit offset : Nat) (retry : SqlAttempt)
    (hc : cachedLookup st pkg dir db tn = none)
    (hd : (dbLookup st pkg dir db).isSome = true) :
    (∀ msg, listContains "database is locked".data (lowerStr msg).data = true →
        getTableData st pkg dir db tn limit offset (.opErr msg) retry
          = retryGetTableData retry)
    ∧ (∀ msg, listContains "database is locked".data (lowerStr msg).data = true →
        (∀ cols rows, retry ≠ .ok cols rows) →
        getTableData st pkg dir db tn limit offset (.opErr msg) retry = ([], []))
    ∧ (∀ msg, listContains "database is locked".data (lowerStr msg).data = false →
        getTableData st pkg dir db tn limit offset (.opErr msg) retry = ([], []))
    ∧ getTableData st pkg dir db tn limit offset .dbErr retry = ([], [])
    ∧ getTableData st pkg dir db tn limit offset .exn retry = ([], []) := by
  obtain ⟨dbi, hdbi⟩ := Option.isSome_iff_exists.mp hd
  have hlock : ∀ msg, listContains "database is locked".data (lowerStr msg).data = true →
      getTableData st pkg dir db tn limit offset (.opErr msg) retry
        = retryGetTableData retry := by
    intro msg hm
    unfold getTableData
    rw [hc, hdbi]
    simp [hm]
  refine ⟨hlock, ?_, ?_, ?_, ?_⟩
  · intro msg hm hnok
    rw [hlock msg hm]
    cases retry with
    | ok cols rows => exact absurd rfl (hnok cols rows)
    | opErr m => rfl
    | dbErr => rfl
    | exn => rfl
  · intro msg hm
    unfold getTableData
    rw [hc, hdbi]
    simp [hm]
  · unfold getTableData
    rw [hc, hdbi]
  · unfold getTableData
    rw [hc, hdbi]

set_option maxRecDepth 40000 in
/-- Witness for C4: on the catalog whose 1001-row table is not cached, a
locked-database error on the first attempt returns the retry connection's
page. -/
theorem c4_witness :
    getTableData bigState "p" "databases" "d" "big" 5 0
      (SqlAttempt.opErr "Database Is Locked")
      (SqlAttempt.ok ["a"] [[Value.int 7]]) = (["a"], [[Value.int 7]]) := by
  have h := (c4_locked_retry bigState "p" "databases" "d" "big" 5 0
      (SqlAttempt.ok ["a"] [[Value.int 7]]) (by decide) (by decide)).1
      "Database Is Locked" (by decide)
  exact h.trans rfl

/-- A cache entry produced by the caching loop is keyed by the table's
name. -/
theorem cacheEntry_key {t : TableData} {e : String × CachedTableData}
    (h : cacheEntry t = some e) : e.1 = t.name := by
  unfold cacheEntry at h
  split at h
  · cases h; rfl
  · cases h

/-- A name that is no table's name has no cache entry. -/
theorem lookup_cache_not_mem (ts : List TableData) (n : String)
    (h : n ∉ ts.map TableData.name) :
    List.lookup n (ts.filterMap cacheEntry) = none := by
  induction ts with
  | nil => rfl
  | cons a as ih =>
    simp only [List.map_cons, List.mem_cons, not_or] at h
    obtain ⟨hna, hnas⟩ := h
    rw [List.filterMap_cons]
    cases hca : cacheEntry a with
    | none => exact ih hnas
    | some e =>
      have hk := cacheEntry_key hca
      rcases e with ⟨k, v⟩
      simp only at hk
      subst hk
      have hne : (n == a.name) = false := beq_eq_false_iff_ne.mpr hna
      simp only [List.lookup, hne]
      exact ih hnas

/-- A table with distinct name, a successful count and a successful fetch,
holding at most 1000 rows, is cached in full. -/
theorem lookup_cache_small (ts : List TableData) (t : TableData)
    (hmem : t ∈ ts) (hnd : (ts.map TableData.name).Nodup)
    (hco : t.countOk = true) (hlo : t.loadOk = true)
    (hlen : t.rows.length ≤ 1000) :
    List.lookup t.name (ts.filterMap cacheEntry)
      = some { columns := t.columns, rows := t.rows, totalRows := t.rows.length } := by
  induction ts with
  | nil => cases hmem
  | cons a as ih =>
    simp only [List.map_cons, List.nodup_cons] at hnd
    obtain ⟨hna, hnd'⟩ := hnd
    rcases List.mem_cons.mp hmem with rfl | h
    · have hce : cacheEntry t
          = some (t.name, { columns := t.columns, rows := t.rows,
                            totalRows := t.rows.length }) := by
        simp [cacheEntry, getTableRowCount, loadTableDataF, hco, hlo, hlen]
      rw [List.filterMap_cons, hce]
      simp [List.lookup]
    · have htn : t.name ∈ as.map TableData.name := List.mem_map_of_mem _ h
      have hne : (t.name == a.name) = false :=
        beq_eq_false_iff_ne.mpr (fun hh => hna (hh ▸ htn))
      rw [List.filterMap_cons]
      cases hca : cacheEntry a with
      | none => exact ih h hnd'
      | some e =>
        have hk := cacheEntry_key hca
        rcases e with ⟨k, v⟩
        simp only at hk
        subst hk
        simp only [List.lookup, hne]
        exact ih h hnd'

/-- A table with distinct name and a successful count, holding more than
1000 rows, has no cache entry. -/
theorem lookup_cache_big (ts : List TableData) (t : TableData)
    (hmem : t ∈ ts) (hnd : (ts.map TableData.name).Nodup)
    (hco : t.countOk = true) (hlen : 1000 < t.rows.length) :
    List.lookup t.name (ts.filterMap cacheEntry) = none := by
  induction ts with
  | nil => rfl
  | cons a as ih =>
    simp only [List.map_cons, List.nodup_cons] at hnd
    obtain ⟨hna, hnd'⟩ := hnd
    rcases List.mem_cons.mp hmem with rfl | h
    · have hce : cacheEntry t = none := by
        simp [cacheEntry, getTableRowCount, hco, not_le.mpr hlen]
      rw [List.filterMap_cons, hce]
      exact lookup_cache_not_mem as t.name hna
    · have htn : t.name ∈ as.map TableData.name := List.mem_map_of_mem _ h
      have hne : (t.name == a.name) = false :=
        beq_eq_false_iff_ne.mpr (fun hh => hna (hh ▸ htn))
      rw [List.filterMap_cons]
      cases hca : cacheEntry a with
      | none => exact ih h hnd'
      | some e =>
        have hk := cacheEntry_key hca
        rcases e with ⟨k, v⟩
        simp only at hk
        subst hk
        simp only [List.lookup, hne]
        exact ih h hnd'

/-- Every posting emitted for table `tn` carries `tn` as its table
name. -/
theorem rowEmissions_tableName {pkg dir db tn : String} {cols : List String}
    {row : List Value} {w : String} {p : Posting}
    (h : (w, p) ∈ rowEmissions pkg dir db tn cols row) : p.tableName = tn := by
  simp only [rowEmissions, List.mem_flatMap] at h
  obtain ⟨cv, _, h⟩ := h
  split at h
  · cases h
  · simp only [List.mem_filterMap] at h
    obtain ⟨word, _, heq⟩ := h
    split at heq
    · injection heq with heq
      rw [Prod.mk.injEq] at heq
      obtain ⟨_, hp⟩ := heq
      subst hp
      rfl
    · cases heq

/-- A posting emitted by a database's index pass names a table that has a
cache entry. -/
theorem dbEmissions_mem {pkg dir db : String} {tnames : List String}
    {tcache : List (String × CachedTableData)} {w : String} {p : Posting}
    (h : (w, p) ∈ dbEmissions pkg dir db tnames tcache) :
    ∃ tn c, tn ∈ tnames ∧ List.lookup tn tcache = some c ∧ p.tableName = tn := by
  simp only [dbEmissions, List.mem_flatMap] at h
  obtain ⟨tn, htn, h⟩ := h
  cases hl : List.lookup tn tcache with
  | none => rw [hl] at h; cases h
  | some c =>
    rw [hl] at h
    simp only [List.mem_flatMap] at h
    obtain ⟨row, _, h⟩ := h
    exact ⟨tn, c, htn, hl, rowEmissions_tableName h⟩

/-- C2. For every table of a database file processed during load whose
count and fetch queries succeed: if its row count is at most 1000
(including exactly 1000) it is cached in full (all columns and rows,
total = row count); if its row count exceeds 1000 (including exactly
1001) it has no cache entry, and the database's index pass emits no
posting naming it. -/
theorem c2_cache_boundary (f : DbFileData) (t : TableData)
    (hmem : t ∈ f.tables) (hnd : (f.tables.map TableData.name).Nodup)
    (hco : t.countOk = true) (hlo : t.loadOk = true) :
    (t.rows.length ≤ 1000 →
        List.lookup t.name (buildTableCache f)
          = some { columns := t.columns, rows := t.rows,
                   totalRows := t.rows.length })
    ∧ (1000 < t.rows.length →
        List.lookup t.name (buildTableCache f) = none
        ∧ ∀ pkg dir db w p,
            (w, p) ∈ dbEmissions pkg dir db (getTableNames f) (buildTableCache f) →
            p.tableName ≠ t.name) := by
  unfold buildTableCache
  constructor
  · intro hlen
    exact lookup_cache_small f.tables t hmem hnd hco hlo hlen
  · intro hlen
    have hnone := lookup_cache_big f.tables t hmem hnd hco hlen
    refine ⟨hnone, ?_⟩
    intro pkg dir db w p hw heq
    obtain ⟨tn, c, _, hl, hpt⟩ := dbEmissions_mem hw
    have htt : tn = t.name := by rw [← hpt, heq]
    rw [htt, hnone] at hl
    cases hl

set_option maxRecDepth 40000 in
/-- Witness for C2: in a file holding the 2-row `people` table and the
1001-row `big` table, `people` is cached in full and `big` has no cache
entry. -/
theorem c2_witness :
    List.lookup "big" (buildTableCache mixedFile) = none
    ∧ List.lookup "people" (buildTableCache mixedFile)
        = some { columns := ["name"],
                 rows := [[Value.text "alice"], [Value.text "alice"]],
                 totalRows := 2 } := by
  constructor
  · exact ((c2_cache_boundary mixedFile bigTable (by decide) (by decide)
      rfl rfl).2 (by decide)).1
  · exact (c2_cache_boundary mixedFile peopleTable (by decide) (by decide)
      rfl rfl).1 (by decide)

/-- C6. In regex mode: (a) the result depends on the regex engine only
through its behaviour at `flags = 0 if case_sensitive else re.IGNORECASE`
— the pattern is compiled once per scanned column with the
case-insensitive flag applied exactly when `case_sensitive` is false; and
(b) when compilation fails, every scanned column yields one diagnostic
scoped to that column and no results, and the traversal still visits
every database, table and column (it is not aborted). -/
theorem c6_regex_flags_invalid (st : DmState) (pat : String) (cs : Bool)
    (reValid : String → Bool) :
    (∀ m₁ m₂ : String → Nat → String → Bool,
        (∀ q s, m₁ q (if cs then 0 else 2) s = m₂ q (if cs then 0 else 2) s) →
        regexTraditionalSearch st pat cs reValid m₁
          = regexTraditionalSearch st pat cs reValid m₂)
    ∧ (reValid pat = false → ∀ m,
        (regexTraditionalSearch st pat cs reValid m).1 = []
        ∧ (regexTraditionalSearch st pat cs reValid m).2 = expectedRegexDiags st) := by
  constructor
  · intro m₁ m₂ h
    unfold regexTraditionalSearch
    rw [funext (fun s => h pat s)]
  · intro hv m
    unfold regexTraditionalSearch
    rw [hv]
    exact ⟨by simp [regexTraditionalCore, flatMap_const_nil], rfl⟩

/-- Witness for C6: with a compile oracle that rejects every pattern, the
regex scan of the demo catalog returns no results and one diagnostic for
the single scanned column. -/
theorem c6_witness :
    (regexTraditionalSearch demoState "(" false (fun _ => false)
        (fun _ _ _ => false)).1 = []
    ∧ (regexTraditionalSearch demoState "(" false (fun _ => false)
        (fun _ _ _ => false)).2 = [Diag.regexError "p" "d" "people" "name"] := by
  have h := (c6_regex_flags_invalid demoState "(" false (fun _ => false)).2
    rfl (fun _ _ _ => false)
  exact ⟨h.1, h.2.trans (by decide)⟩

/-- C7 (byte-pattern mode, modelled from the spec where noted at
`byteSearch`): a term that is not an even-length string of hex digits is
rejected with a validation error; on a valid term every result's matched
cell is a binary value containing the decoded byte sequence as an exact
substring (text cells never match); and the search index plays no part in
the result. -/
theorem c7_byte_mode (st : DmState) :
    (∀ term, hexTermValid term = false →
        byteSearch st term = Except.error "invalid hex term")
    ∧ (∀ term rs, byteSearch st term = Except.ok rs →
        ∀ r ∈ rs, ∃ b, listContains (decodeHex term.data) b = true
          ∧ r.matchValue = pyStr (Value.blob b))
    ∧ (∀ idx term,
        byteSearch { st with searchIndex := idx } term = byteSearch st term) := by
  refine ⟨?_, ?_, fun idx term => rfl⟩
  · intro term h
    simp [byteSearch, h]
  · intro term rs hok r hr
    unfold byteSearch at hok
    by_cases hv : hexTermValid term = true
    · rw [if_pos hv] at hok
      injection hok with hok
      subst hok
      simp only [List.mem_flatMap] at hr
      obtain ⟨pd, _, dd, _, dbp, _, hr⟩ := hr
      simp only [byteSearchDb, List.mem_flatMap, List.mem_filterMap] at hr
      obtain ⟨tn, _, c, _, row, _, heq⟩ := hr
      split at heq
      · rename_i b hbeq
        split at heq
        · rename_i hmatch
          injection heq with heq
          subst heq
          exact ⟨b, hmatch, rfl⟩
        · cases heq
      · cases heq
    · rw [if_neg hv] at hok
      cases hok

/-- Witness for C7: the non-hex term "zz" is rejected. -/
theorem c7_witness :
    byteSearch demoState "zz" = Except.error "invalid hex term" :=
  (c7_byte_mode demoState).1 "zz" (by decide)

end DbViewer
